import Mathlib

/-!
Shallow embedding of the OfferShield offer trust-scoring pipeline
(src/onboardmate_lib.py together with the /verify route of src/main.py),
followed by theorems checking the natural-language specification claims
against it.

Modelling conventions.

* Python str values are Lean `String`s; character-level processing
  (lower-casing, whitespace, digits) is modelled for the ASCII range that
  every claim and every table entry lives in.  Python additionally treats a
  handful of Unicode code points as whitespace or digits; no claim depends
  on those.
* Python float arithmetic is modelled by exact rational arithmetic over `ℚ`.
  All concrete inputs used below land far from any binary-rounding boundary,
  so the modelled values coincide with the float values the source computes.
* Python ints are `ℤ` (or `ℕ` for counts); Python int() truncation of the
  one float-to-int conversion in structure_validation_check agrees with
  natural-number division for the seven possible numerators 0,100,...,600.
* The network probes (`_check_domain_http`) and the LLM collaborator
  (`_call_llm`) are blocking I/O; each embedded check takes their observable
  outcome as an explicit argument (two booleans per probe, an
  `Option String` for the collaborator, `none` meaning unavailable).
* Every Python f-string flag becomes one constructor of `Flag` carrying
  exactly the interpolated data, so flag lists keep their identity and order
  without modelling Python string formatting.
-/

namespace OfferShield

/-! ## Character and string primitives (Python str methods) -/

/-- ASCII whitespace recognised by Python str.split / str.strip / regex \s. -/
def isPySpace (c : Char) : Bool :=
  c == ' ' || c == '\t' || c == '\n' || c == '\x0d' || c == '\x0b' || c == '\x0c'

/-- Python str.lower on one character (ASCII range). -/
def pyLowerChar (c : Char) : Char :=
  if 'A' ≤ c ∧ c ≤ 'Z' then Char.ofNat (c.toNat + 32) else c

/-- Python str.lower on a character list. -/
def pyLowerL (l : List Char) : List Char := l.map pyLowerChar

/-- Python str.lower. -/
def pyLower (s : String) : String := ⟨pyLowerL s.data⟩

/-- Right strip of whitespace, second half of Python str.strip. -/
def stripRightWs (l : List Char) : List Char :=
  (l.reverse.dropWhile isPySpace).reverse

/-- Python str.strip with no arguments. -/
def pyStrip (l : List Char) : List Char :=
  stripRightWs (l.dropWhile isPySpace)

/-- Substring test, Python `needle in hay`. -/
def containsSub (needle : List Char) : List Char → Bool
  | [] => needle.isEmpty
  | c :: rest => needle.isPrefixOf (c :: rest) || containsSub needle rest

/-- Python `sub in s` on strings. -/
def strContains (s sub : String) : Bool := containsSub sub.data s.data

/-- Python str.split() with no arguments: split on whitespace runs,
dropping empty words.  The accumulator holds the current word reversed. -/
def splitWsAux : List Char → List Char → List (List Char)
  | [], acc => if acc.isEmpty then [] else [acc.reverse]
  | c :: cs, acc =>
      if isPySpace c then
        if acc.isEmpty then splitWsAux cs [] else acc.reverse :: splitWsAux cs []
      else splitWsAux cs (c :: acc)

/-- Python str.split() with no arguments. -/
def splitWs (l : List Char) : List (List Char) := splitWsAux l []

/-- Python " ".join. -/
def joinSpace : List (List Char) → List Char
  | [] => []
  | [w] => w
  | w :: v :: rest => w ++ ' ' :: joinSpace (v :: rest)

/-- Decimal value of a digit list. -/
def digitsVal (l : List Char) : ℕ :=
  l.foldl (fun acc c => acc * 10 + (c.toNat - 48)) 0

/-! ## Static tables from onboardmate_lib.py -/

def OFFICIAL_HR_EMAILS : List (String × List String) :=
  [("google", ["no-reply@google.com", "careers@google.com"]),
   ("amazon", ["no-reply@amazon.com", "campus-hire@amazon.com"]),
   ("microsoft", ["microsoft@e-mail.microsoft.com", "msrecruit@microsoft.com"]),
   ("accenture", ["careers@accenture.com", "recruitment@accenture.com"]),
   ("deloitte", ["recruiting@deloitte.com", "campusrecruiting@deloitte.com"]),
   ("infosys", ["hr@infosys.com", "recruitment@infosys.com"]),
   ("tcs", ["hr@tcs.com", "recruitment@tcs.com"]),
   ("jpmorgan", ["recruiting@jpmorgan.com"]),
   ("meta", ["no-reply@fb.com", "recruiting@fb.com"])]

def FREE_EMAIL_DOMAINS : List String :=
  ["gmail.com", "yahoo.com", "outlook.com", "hotmail.com",
   "rediffmail.com", "proton.me", "icloud.com"]

def SUSPICIOUS_LINK_TLDS : List String :=
  [".xyz", ".top", ".info", ".pw", ".click", ".club", ".icu"]

def URL_SHORTENERS : List String :=
  ["bit.ly", "tinyurl.com", "is.gd", "t.co", "cutt.ly", "rb.gy"]

def SALARY_BENCHMARKS : List (String × ℚ × ℚ) :=
  [("india_fresher_software_engineer_month", (20000, 90000)),
   ("india_fresher_data_analyst_month", (20000, 80000)),
   ("india_intern_month", (0, 35000)),
   ("us_fresher_software_engineer_year", (60000, 200000)),
   ("us_intern_month", (2000, 10000))]

def SECTION_KEYWORDS : List (String × List String) :=
  [("offer_id", ["offer id", "reference no", "ref no"]),
   ("address", ["registered office", "corporate office", "address"]),
   ("joining_date", ["date of joining", "doj", "joining date"]),
   ("manager", ["reporting manager", "reports to", "supervisor"]),
   ("role", ["designation", "position", "job title", "role"]),
   ("ctc", ["ctc", "compensation", "salary structure", "remuneration"]),
   ("tnc", ["terms and conditions", "terms & conditions", "termination", "bond period"]),
   ("contact", ["hr contact", "contact number", "reach out to", "email us at"]),
   ("company_ids", ["gst", "pan", "cin"])]

/-! ## Flags

Each constructor corresponds to one f-string appended to a flags list in
onboardmate_lib.py, carrying the values interpolated into it. -/

inductive Flag where
  /-- "No valid HR email domain found." -/
  | noValidDomain
  /-- "HR email uses free provider (domain)." -/
  | freeProvider (domain : String)
  /-- "HR email does not match known official addresses for this company." -/
  | emailMismatch
  /-- "Company email domain does not appear to be reachable." -/
  | domainUnreachable
  /-- "Domain only responds over HTTP (no HTTPS)." -/
  | httpOnly
  /-- "Could not parse salary amount; skipping salary realism checks." -/
  | couldNotParseSalary
  /-- "No salary benchmark defined for key 'key'. Using neutral score." -/
  | noBenchmark (key : String)
  /-- "Offered salary (amount) is extremely low compared to typical range low-high." -/
  | salaryTooLow (amount low high : ℚ)
  /-- "Offered salary (amount) is extremely high compared to typical range low-high." -/
  | salaryTooHigh (amount low high : ℚ)
  /-- "Offered salary (amount) is higher than usual; verify with official HR." -/
  | salaryHigherThanUsual (amount : ℚ)
  /-- "Candidate reports no interview occurred before offer." -/
  | noInterview
  /-- "Interview was conducted via WhatsApp/Telegram." -/
  | interviewWhatsapp
  /-- "Interview was only an audio call; verify carefully." -/
  | interviewAudioOnly
  /-- "Interview duration was less than 5 minutes." -/
  | interviewUnder5
  /-- "Interview duration was very short (less than 15 minutes)." -/
  | interviewUnder15
  /-- "No technical questions were asked for a technical-looking role." -/
  | noTechnicalQuestions
  /-- "No domain available to check company existence." -/
  | noDomainForExistence
  /-- "Company domain did not respond over HTTP/HTTPS." -/
  | companyDomainNoResponse
  /-- "High-risk language patterns detected: ..." (joined pattern list). -/
  | riskLanguage (patterns : List String)
  /-- "Mentions of WhatsApp/Telegram/Signal in the offer text, ...". -/
  | whatsappMentions
  /-- "Suspicious links found: ..." (joined link list). -/
  | suspiciousLinks (links : List String)
  /-- "This letter hash has been reported as scam N time(s) by other users." -/
  | reportedScam (count : ℕ)
  /-- "Missing important sections: ..." (joined section-key list). -/
  | missingSections (sections : List String)
  deriving DecidableEq, Repr

/-! ## A small regex engine

Only the constructs occurring in RISKY_LANGUAGE_PATTERNS and
WHATSAPP_TELEGRAM_PATTERNS are supported: literal runs, `.*` (any run of
non-newline characters), a single-character class, an optional character,
and a bounded digit repetition.  `matchHere` decides whether some prefix of
the text matches the element sequence; `reSearch` is Python re.search. -/

inductive PatElem where
  | lit (s : List Char)
  | anyStar
  | cls (cs : List Char)
  | optChar (c : Char)
  | digits (lo hi : ℕ)

/-- Suffixes reachable from a text by letting `.*` consume zero or more
non-newline characters. -/
def starDrops : List Char → List (List Char)
  | [] => [[]]
  | c :: cs => (c :: cs) :: (if c == '\n' then [] else starDrops cs)

def matchHere : List PatElem → List Char → Bool
  | [], _ => true
  | .lit w :: ps, s => w.isPrefixOf s && matchHere ps (s.drop w.length)
  | .anyStar :: ps, s => (starDrops s).any (fun t => matchHere ps t)
  | .cls cs :: ps, s =>
      match s with
      | [] => false
      | c :: rest => cs.contains c && matchHere ps rest
  | .optChar c :: ps, s =>
      (match s with
       | c' :: rest => c' == c && matchHere ps rest
       | [] => false) || matchHere ps s
  | .digits lo hi :: ps, s =>
      (List.range (hi + 1)).any (fun k =>
        decide (lo ≤ k) && (s.take k).length == k &&
        (s.take k).all Char.isDigit && matchHere ps (s.drop k))

/-- Python re.search as a boolean: does the pattern match at some position. -/
def reSearch (ps : List PatElem) : List Char → Bool
  | [] => matchHere ps []
  | c :: cs => matchHere ps (c :: cs) || reSearch ps cs

/-- The RISKY_LANGUAGE_PATTERNS table: each entry keeps the Python pattern
source text (what the code records as evidence) next to its compilation. -/
def RISKY_LANGUAGE_PATTERNS : List (String × List PatElem) :=
  [("processing fee", [.lit "processing fee".data]),
   ("registration fee", [.lit "registration fee".data]),
   ("registration amount", [.lit "registration amount".data]),
   ("training fee", [.lit "training fee".data]),
   ("refundable fee", [.lit "refundable fee".data]),
   ("urgent payment", [.lit "urgent payment".data]),
   ("pay.*before joining", [.lit "pay".data, .anyStar, .lit "before joining".data]),
   ("no interview required", [.lit "no interview required".data]),
   ("without any interview", [.lit "without any interview".data]),
   ("confirm within 24 hours", [.lit "confirm within 24 hours".data]),
   ("confirm in 24 hours", [.lit "confirm in 24 hours".data]),
   ("do not share this offer", [.lit "do not share this offer".data]),
   ("don[’']t share this offer",
     [.lit "don".data, .cls [Char.ofNat 8217, Char.ofNat 39], .lit "t share this offer".data]),
   ("whatsapp .* joining", [.lit "whatsapp ".data, .anyStar, .lit " joining".data]),
   ("whatsapp only for communication", [.lit "whatsapp only for communication".data]),
   ("certificate fee", [.lit "certificate fee".data]),
   ("security deposit", [.lit "security deposit".data]),
   ("slot will be given to next candidate", [.lit "slot will be given to next candidate".data])]

def WHATSAPP_TELEGRAM_PATTERNS : List (String × List PatElem) :=
  [("whatsapp", [.lit "whatsapp".data]),
   ("wa\\.me/", [.lit "wa.me/".data]),
   ("\\+?\\d\x7b10,13\x7d.*whatsapp", [.optChar '+', .digits 10 13, .anyStar, .lit "whatsapp".data]),
   ("telegram", [.lit "telegram".data]),
   ("t\\.me/", [.lit "t.me/".data]),
   ("signal", [.lit "signal".data])]

/-! ## Feature 3 and 10: language_risk_check -/

structure LanguageRiskResult where
  score : ℤ
  risk_phrases : List String
  whatsapp_telegram_mentions : List String
  deriving Repr

def language_risk_check (raw_text : String) : LanguageRiskResult :=
  let text := (pyLower raw_text).data
  let risk_hits := (RISKY_LANGUAGE_PATTERNS.filter (fun p => reSearch p.2 text)).map (·.1)
  let wt_hits := (WHATSAPP_TELEGRAM_PATTERNS.filter (fun p => reSearch p.2 text)).map (·.1)
  let score : ℤ :=
    100 - min 70 (10 * (risk_hits.length : ℤ)) - min 20 (5 * (wt_hits.length : ℤ))
  { score := max score 0
    risk_phrases := risk_hits
    whatsapp_telegram_mentions := wt_hits }

/-! ## Feature 5: salary plausibility -/

/-- The salary_amount payload field: Python None, a number, or a string. -/
inductive SalaryInput where
  | null
  | num (q : ℚ)
  | str (s : String)

structure SalaryCheckResult where
  score : ℤ
  flags : List Flag
  parsed_amount : Option ℚ
  deriving Repr

/-- Strip currency symbols and commas, re.sub of the class of ₹, dollar, comma. -/
def stripCurrency (l : List Char) : List Char :=
  l.filter (fun c => !(c == Char.ofNat 8377 || c == '$' || c == ','))

/-- Value of the regex match \d+(\.\d+)? starting at the head of `l`,
where the head is known to be a digit. -/
def numberHere (l : List Char) : ℚ :=
  let ds := l.takeWhile Char.isDigit
  let rest := l.dropWhile Char.isDigit
  match rest with
  | '.' :: r =>
      let fs := r.takeWhile Char.isDigit
      if fs.isEmpty then (digitsVal ds : ℚ)
      else (digitsVal ds : ℚ) + (digitsVal fs : ℚ) / ((10 : ℚ) ^ fs.length)
  | _ => (digitsVal ds : ℚ)

/-- First \d+(\.\d+)? token in the text, as an exact rational. -/
def findNumber : List Char → Option ℚ
  | [] => none
  | c :: cs => if c.isDigit then some (numberHere (c :: cs)) else findNumber cs

def parse_salary_amount : SalaryInput → Option ℚ
  | .null => none
  | .num q => some q
  | .str s => findNumber (stripCurrency s.data)

/-- The benchmark key built inside salary_plausibility_check: region hint as
given, seniority bucket from the lowered role text, lowered period. -/
def salaryKey (region_hint job_role salary_period : String) : String :=
  let role_lower := pyLower job_role
  let period := pyLower salary_period
  if strContains role_lower "intern" then
    region_hint ++ "_intern_" ++ period
  else if strContains role_lower "data" && strContains role_lower "analyst" then
    region_hint ++ "_fresher_data_analyst_" ++ period
  else
    region_hint ++ "_fresher_software_engineer_" ++ period

def salary_plausibility_check (salary_amount : SalaryInput)
    (salary_currency salary_period job_role : String)
    (region_hint : String := "india") : SalaryCheckResult :=
  match parse_salary_amount salary_amount with
  | none =>
      { score := 100, flags := [.couldNotParseSalary], parsed_amount := none }
  | some amount =>
      match SALARY_BENCHMARKS.lookup (salaryKey region_hint job_role salary_period) with
      | none =>
          { score := 100
            flags := [.noBenchmark (salaryKey region_hint job_role salary_period)]
            parsed_amount := some amount }
      | some (low, high) =>
          if amount < low * 0.3 then
            { score := max (100 - 30) 0, flags := [.salaryTooLow amount low high]
              parsed_amount := some amount }
          else if amount > high * 2 then
            { score := max (100 - 40) 0, flags := [.salaryTooHigh amount low high]
              parsed_amount := some amount }
          else if amount > high * 1.3 then
            { score := max (100 - 15) 0, flags := [.salaryHigherThanUsual amount]
              parsed_amount := some amount }
          else
            { score := max 100 0, flags := [], parsed_amount := some amount }

/-! ## Feature 9: link validation -/

structure LinkRiskResult where
  score : ℤ
  suspicious_links : List String
  short_links : List String
  deriving Repr

/-- Length of the re.findall match of https?://[^\s]+ at the head of the
text, or 0 when there is no match here.  The scheme characters themselves
are non-whitespace, so the whole match is the leading non-whitespace run,
and [^\s]+ needs it to be strictly longer than the scheme. -/
def urlMatchLen (s : List Char) : ℕ :=
  let run := (s.takeWhile (fun ch => !isPySpace ch)).length
  if "https://".data.isPrefixOf s && decide (8 < run) then run
  else if "http://".data.isPrefixOf s && decide (7 < run) then run
  else 0

/-- Scanner of extract_urls, structurally recursive on a fuel argument that
starts at the text length: every step consumes at least one character, so
the fuel never runs out before the text does. -/
def extractUrlsAux : ℕ → List Char → List String
  | 0, _ => []
  | _, [] => []
  | fuel + 1, c :: cs =>
      let n := urlMatchLen (c :: cs)
      if 0 < n then
        (⟨(c :: cs).take n⟩ : String) :: extractUrlsAux fuel ((c :: cs).drop n)
      else
        extractUrlsAux fuel cs

/-- extract_urls: Python re.findall of (https?://[^\s]+), leftmost
non-overlapping matches. -/
def extract_urls (l : List Char) : List String :=
  extractUrlsAux l.length l

/-- Host of a URL: strip the scheme prefix, keep everything before the
first slash, lower-case. -/
def hostOfUrl (url : String) : List Char :=
  let l := url.data
  let l1 :=
    if "https://".data.isPrefixOf l then l.drop 8
    else if "http://".data.isPrefixOf l then l.drop 7
    else l
  pyLowerL (l1.takeWhile (fun ch => !(ch == '/')))

structure LinkState where
  score : ℤ
  suspicious : List String
  short : List String

/-- Body of the per-URL loop of link_risk_check.  The suspicious-TLD set
contains no string that is a suffix of another, so the break in the Python
for-loop fires for at most one TLD and the set's iteration order is
irrelevant: the effect is a single −15 when any TLD matches. -/
def processUrl (st : LinkState) (url : String) : LinkState :=
  let host := hostOfUrl url
  let isShort := URL_SHORTENERS.any (fun s => s.data.isPrefixOf host)
  let isTld := SUSPICIOUS_LINK_TLDS.any (fun tld => tld.data.isSuffixOf host)
  let isLookalike :=
    (['0', '1', '3', '@'].any (fun ch => host.contains ch)) &&
      (["google", "amazon", "microsoft", "accenture"].any
        (fun name => containsSub name.data host))
  { score := st.score - (if isShort then 10 else 0) - (if isTld then 15 else 0) -
      (if isLookalike then 20 else 0)
    suspicious := st.suspicious ++ (if isTld then [url] else []) ++
      (if isLookalike then [url] else [])
    short := st.short ++ (if isShort then [url] else []) }

def link_risk_check (urls : List String) : LinkRiskResult :=
  let final := urls.foldl processUrl { score := 100, suspicious := [], short := [] }
  { score := max final.score 0
    suspicious_links := final.suspicious
    short_links := final.short }

/-! ## Feature 11: interview plausibility -/

/-- The "interview" payload object, with Python absent-key defaults baked
in: a missing had_interview is falsy, a missing channel becomes "", and
missing duration or asked_technical stay None. -/
structure InterviewInfo where
  had_interview : Bool := false
  channel : String := ""
  duration_minutes : Option ℤ := none
  asked_technical : Option Bool := none

structure InterviewResult where
  score : ℤ
  flags : List Flag
  deriving Repr

def interview_plausibility_check (info : InterviewInfo) : InterviewResult :=
  let channel := pyLower info.channel
  let chanFlags : List Flag :=
    if !info.had_interview then [.noInterview]
    else if strContains channel "whatsapp" || strContains channel "telegram" then
      [.interviewWhatsapp]
    else if strContains channel "phone" || strContains channel "call" then
      [.interviewAudioOnly]
    else []
  let chanPen : ℤ :=
    if !info.had_interview then 35
    else if strContains channel "whatsapp" || strContains channel "telegram" then 30
    else if strContains channel "phone" || strContains channel "call" then 10
    else 0
  let durFlags : List Flag :=
    match info.duration_minutes with
    | none => []
    | some d => if d < 5 then [.interviewUnder5] else if d < 15 then [.interviewUnder15] else []
  let durPen : ℤ :=
    match info.duration_minutes with
    | none => 0
    | some d => if d < 5 then 20 else if d < 15 then 10 else 0
  let techFlags : List Flag :=
    if info.asked_technical == some false then [.noTechnicalQuestions] else []
  let techPen : ℤ := if info.asked_technical == some false then 20 else 0
  { score := max (100 - chanPen - durPen - techPen) 0
    flags := chanFlags ++ durFlags ++ techFlags }

/-! ## Feature 12: offer structure validation -/

structure StructureMeta where
  score : ℤ
  sections_found : List (String × Bool)
  missing_sections : List String
  deriving Repr

/-- Sections present in the lowered text: any keyword occurring as a
substring marks the section found. -/
def sectionsFound (text : List Char) : List (String × Bool) :=
  SECTION_KEYWORDS.map (fun kv => (kv.1, kv.2.any (fun k => containsSub k.data text)))

def requiredKeys : List String :=
  ["offer_id", "joining_date", "role", "ctc", "tnc", "contact"]

/-- The arithmetic of structure_validation_check: integer base score from
the required-section count (Python int() truncation of (count/6)*100 agrees
with natural division for every count 0..6), then the two optional-section
deductions, each floored at 0. -/
def structureScore (present_count : ℕ) (addr_found ids_found : Bool) : ℤ :=
  let base0 : ℤ := ((present_count * 100) / 6 : ℕ)
  let base1 : ℤ := if !addr_found then max (base0 - 10) 0 else base0
  if !ids_found then max (base1 - 5) 0 else base1

def structure_validation_check (raw_text : String) : StructureMeta :=
  let text := (pyLower raw_text).data
  let found := sectionsFound text
  let lookupFound := fun k => ((found.lookup k).getD false)
  let missing := requiredKeys.filter (fun k => !lookupFound k)
  let present_count : ℕ := requiredKeys.length - missing.length
  { score := structureScore present_count (lookupFound "address") (lookupFound "company_ids")
    sections_found := found
    missing_sections := missing }

/-! ## Features 2, 13, 8: LLM-delegated scores

`_call_llm` returns "" when the collaborator is unavailable; the llm
argument below is the collaborator's raw reply, `none` when unavailable. -/

structure DocumentIntegrityResult where
  score : ℤ
  summary : String
  deriving Repr

structure RoleConsistencyResult where
  score : ℤ
  summary : String
  deriving Repr

/-- re.search of the pattern SCORE: followed by optional whitespace and a
digit run, returning the first match's digit-group value. -/
def findScoreAux : List Char → Option ℕ
  | [] => none
  | c :: cs =>
      let here :=
        if "SCORE:".data.isPrefixOf (c :: cs) then
          let rest := ((c :: cs).drop 6).dropWhile isPySpace
          let ds := rest.takeWhile Char.isDigit
          if ds.isEmpty then none else some (digitsVal ds)
        else none
      match here with
      | some n => some n
      | none => findScoreAux cs

def extractScore (s : String) : Option ℕ := findScoreAux s.data

def document_integrity_and_explainability (raw_text company_name hr_email : String)
    (llm : Option String) : DocumentIntegrityResult :=
  let llm_output := llm.getD ""
  let score : ℤ :=
    match extractScore llm_output with
    | none => 60
    | some n => max 0 (min 100 (n : ℤ))
  { score := score, summary := ⟨pyStrip llm_output.data⟩ }

def role_consistency_check (job_role raw_text : String) (interview_info : InterviewInfo)
    (llm : Option String) : RoleConsistencyResult :=
  let llm_output := llm.getD ""
  let score : ℤ :=
    match extractScore llm_output with
    | none => 60
    | some n => max 0 (min 100 (n : ℤ))
  { score := score, summary := ⟨pyStrip llm_output.data⟩ }

/-! ## Features 1 and 6: company authenticity and existence

`_check_domain_http` performs DNS plus HTTP and HTTPS probes; its
observable outcome is the pair (http_ok, https_ok), taken as arguments. -/

structure CompanyAuthResult where
  score : ℤ
  flags : List Flag
  domain : Option String
  used_free_email : Bool
  domain_reachable : Bool
  https_ok : Bool
  deriving Repr

structure CompanyExistenceResult where
  score : ℤ
  flags : List Flag
  checked_domain : Option String
  deriving Repr

def extractDomainFromEmail (email : String) : Option String :=
  let e := pyLowerL (pyStrip email.data)
  if e.contains '@' then some ⟨(e.dropWhile (fun c => !(c == '@'))).tail⟩ else none

def company_authenticity_check (company_name hr_email : String)
    (http_ok https_ok : Bool) : CompanyAuthResult :=
  match extractDomainFromEmail hr_email with
  | none =>
      { score := max (100 - 25) 0, flags := [.noValidDomain], domain := none,
        used_free_email := false, domain_reachable := false, https_ok := false }
  | some domain =>
      let used_free := FREE_EMAIL_DOMAINS.contains domain
      let p_free : ℤ := if used_free then 35 else 0
      let f_free : List Flag := if used_free then [.freeProvider domain] else []
      let official := (OFFICIAL_HR_EMAILS.lookup (pyLower ⟨pyStrip company_name.data⟩)).getD []
      let mismatch :=
        !official.isEmpty &&
          !(official.map pyLower).contains (⟨pyLowerL (pyStrip hr_email.data)⟩ : String)
      let p_mis : ℤ := if mismatch then 25 else 0
      let f_mis : List Flag := if mismatch then [.emailMismatch] else []
      let reachable := http_ok || https_ok
      let p_reach : ℤ := if !reachable then 20 else 0
      let f_reach : List Flag := if !reachable then [.domainUnreachable] else []
      let p_tls : ℤ := if http_ok && !https_ok then 10 else 0
      let f_tls : List Flag := if http_ok && !https_ok then [.httpOnly] else []
      { score := max (min (100 - p_free - p_mis - p_reach - p_tls) 100) 0
        flags := f_free ++ f_mis ++ f_reach ++ f_tls
        domain := some domain
        used_free_email := used_free
        domain_reachable := reachable
        https_ok := https_ok }

def company_existence_check (company_name hr_email : String)
    (http_ok https_ok : Bool) : CompanyExistenceResult :=
  match extractDomainFromEmail hr_email with
  | none =>
      { score := max (100 - 20) 0, flags := [.noDomainForExistence], checked_domain := none }
  | some domain =>
      if !(http_ok || https_ok) then
        { score := max (100 - 30) 0, flags := [.companyDomainNoResponse],
          checked_domain := some domain }
      else
        { score := max 100 0, flags := [], checked_domain := some domain }

/-! ## Feature 15: final aggregation -/

/-- Python round: round half to even, on exact rationals. -/
def pyRound (q : ℚ) : ℤ :=
  if q - ⌊q⌋ < 1 / 2 then ⌊q⌋
  else if 1 / 2 < q - ⌊q⌋ then ⌊q⌋ + 1
  else if ⌊q⌋ % 2 = 0 then ⌊q⌋ else ⌊q⌋ + 1

/-- The scam-report trust sub-score computed inside aggregate_final_score
from the reports_count field of the stats dictionary. -/
def scamTrust (reports_count : ℕ) : ℤ :=
  max 0 (100 - (reports_count : ℤ) * 15)

structure FinalTrust where
  score : ℤ
  verdict : String
  verdict_color : String
  reasons : List Flag
  deriving Repr

def aggregate_final_score (company_auth : CompanyAuthResult)
    (lang_risk : LanguageRiskResult) (salary_check : SalaryCheckResult)
    (link_risk : LinkRiskResult) (interview_res : InterviewResult)
    (structure_res : StructureMeta) (doc_integrity : DocumentIntegrityResult)
    (role_consistency : RoleConsistencyResult) (company_exist : CompanyExistenceResult)
    (reports_count : ℕ) : FinalTrust :=
  let final_q : ℚ :=
    (company_auth.score : ℚ) * 0.2 + (lang_risk.score : ℚ) * 0.15 +
    (salary_check.score : ℚ) * 0.1 + (link_risk.score : ℚ) * 0.05 +
    (interview_res.score : ℚ) * 0.1 + (structure_res.score : ℚ) * 0.1 +
    (doc_integrity.score : ℚ) * 0.1 + (role_consistency.score : ℚ) * 0.1 +
    (company_exist.score : ℚ) * 0.05 + (scamTrust reports_count : ℚ) * 0.05
  let final := pyRound final_q
  let verdict :=
    if 80 ≤ final then "Likely Genuine"
    else if 60 ≤ final then "Needs Verification"
    else "High Scam Risk"
  let color :=
    if 80 ≤ final then "green" else if 60 ≤ final then "yellow" else "red"
  let reasons : List Flag :=
    company_auth.flags ++ company_exist.flags ++ salary_check.flags ++ interview_res.flags ++
    (if lang_risk.risk_phrases.isEmpty then [] else [.riskLanguage lang_risk.risk_phrases]) ++
    (if lang_risk.whatsapp_telegram_mentions.isEmpty then [] else [.whatsappMentions]) ++
    (if link_risk.suspicious_links.isEmpty then []
     else [.suspiciousLinks link_risk.suspicious_links]) ++
    (if 0 < reports_count then [.reportedScam reports_count] else []) ++
    (if structure_res.missing_sections.isEmpty then []
     else [.missingSections structure_res.missing_sections])
  { score := final, verdict := verdict, verdict_color := color, reasons := reasons.take 12 }

/-! ## SHA-256 (hashlib.sha256 ... .hexdigest()), FIPS 180-4 over byte lists -/

def add32 (a b : Nat) : Nat := (a + b) % 2 ^ 32

def rotr32 (n x : Nat) : Nat := ((x >>> n) ||| (x <<< (32 - n))) % 2 ^ 32

def bigSigma0 (x : Nat) : Nat := rotr32 2 x ^^^ rotr32 13 x ^^^ rotr32 22 x

def bigSigma1 (x : Nat) : Nat := rotr32 6 x ^^^ rotr32 11 x ^^^ rotr32 25 x

def smallSigma0 (x : Nat) : Nat := rotr32 7 x ^^^ rotr32 18 x ^^^ (x >>> 3)

def smallSigma1 (x : Nat) : Nat := rotr32 17 x ^^^ rotr32 19 x ^^^ (x >>> 10)

def chF (e f g : Nat) : Nat := (e &&& f) ^^^ ((e ^^^ 0xffffffff) &&& g)

def majF (a b c : Nat) : Nat := (a &&& b) ^^^ (a &&& c) ^^^ (b &&& c)

/-- The FIPS 180-4 initial hash value for SHA-256 (the eight 32-bit words
usually listed as 6a09e667, bb67ae85, ..., 5be0cd19), in decimal. -/
def SHA_H0 : List Nat :=
  [1779033703, 3144134277, 1013904242, 2773480762,
   1359893119, 2600822924, 528734635, 1541459225]

/-- The 64 FIPS 180-4 round constants for SHA-256 (usually listed as
428a2f98, 71374491, ..., c67178f2), in decimal. -/
def SHA_K : List Nat :=
  [1116352408, 1899447441, 3049323471, 3921009573, 961987163,
   1508970993, 2453635748, 2870763221, 3624381080, 310598401,
   607225278, 1426881987, 1925078388, 2162078206, 2614888103,
   3248222580, 3835390401, 4022224774, 264347078, 604807628,
   770255983, 1249150122, 1555081692, 1996064986, 2554220882,
   2821834349, 2952996808, 3210313671, 3336571891, 3584528711,
   113926993, 338241895, 666307205, 773529912, 1294757372,
   1396182291, 1695183700, 1986661051, 2177026350, 2456956037,
   2730485921, 2820302411, 3259730800, 3345764771, 3516065817,
   3600352804, 4094571909, 275423344, 430227734, 506948616,
   659060556, 883997877, 958139571, 1322822218, 1537002063,
   1747873779, 1955562222, 2024104815, 2227730452, 2361852424,
   2428436474, 2756734187, 3204031479, 3329325298]

/-- Pad a byte message: append 0x80, zero bytes to 56 mod 64, then the
bit length as 8 big-endian bytes. -/
def padMessage (msg : List Nat) : List Nat :=
  let L := msg.length
  let k := (119 - L % 64) % 64
  let bitLen := (8 * L) % 2 ^ 64
  msg ++ 0x80 :: List.replicate k 0 ++
    (List.range 8).map (fun i => (bitLen >>> (8 * (7 - i))) % 256)

/-- Group bytes into 32-bit big-endian words. -/
def bytesToWords : List Nat → List Nat
  | b0 :: b1 :: b2 :: b3 :: rest =>
      (((b0 * 256 + b1) * 256 + b2) * 256 + b3) :: bytesToWords rest
  | _ => []

/-- Split a padded message into 64-byte blocks. -/
def toBlocks : List Nat → List (List Nat)
  | [] => []
  | c :: cs => ((c :: cs).take 64) :: toBlocks (cs.drop 63)
termination_by l => l.length
decreasing_by
  simp only [List.length_drop, List.length_cons]
  omega

/-- Extend the 16-word schedule by `n` further words. -/
def extendSchedule : Nat → List Nat → List Nat
  | 0, ws => ws
  | n + 1, ws =>
      let i := ws.length
      let next :=
        add32 (add32 (ws.getD (i - 16) 0) (smallSigma0 (ws.getD (i - 15) 0)))
              (add32 (ws.getD (i - 7) 0) (smallSigma1 (ws.getD (i - 2) 0)))
      extendSchedule n (ws ++ [next])

/-- One compression round on the state [a, b, c, d, e, f, g, h]. -/
def roundStep (st : List Nat) (kw : Nat × Nat) : List Nat :=
  let a := st.getD 0 0
  let b := st.getD 1 0
  let c := st.getD 2 0
  let d := st.getD 3 0
  let e := st.getD 4 0
  let f := st.getD 5 0
  let g := st.getD 6 0
  let h := st.getD 7 0
  let t1 := (h + bigSigma1 e + chF e f g + kw.1 + kw.2) % 2 ^ 32
  let t2 := (bigSigma0 a + majF a b c) % 2 ^ 32
  [(t1 + t2) % 2 ^ 32, a, b, c, (d + t1) % 2 ^ 32, e, f, g]

def compressBlock (h : List Nat) (block : List Nat) : List Nat :=
  let w := extendSchedule 48 (bytesToWords block)
  let final := (SHA_K.zip w).foldl roundStep h
  (h.zip final).map (fun p => add32 p.1 p.2)

def sha256Words (msg : List Nat) : List Nat :=
  (toBlocks (padMessage msg)).foldl compressBlock SHA_H0

def hexDigit (n : Nat) : Char := "0123456789abcdef".data.getD n '0'

def word32Hex (w : Nat) : List Char :=
  (List.range 8).map (fun i => hexDigit ((w >>> (28 - 4 * i)) % 16))

def sha256hex (msg : List Nat) : String :=
  ⟨(sha256Words msg).foldr (fun w acc => word32Hex w ++ acc) []⟩

/-- UTF-8 encoding of one character. -/
def utf8Bytes (c : Char) : List Nat :=
  let n := c.toNat
  if n < 0x80 then [n]
  else if n < 0x800 then
    [0xc0 ||| (n >>> 6), 0x80 ||| (n &&& 0x3f)]
  else if n < 0x10000 then
    [0xe0 ||| (n >>> 12), 0x80 ||| ((n >>> 6) &&& 0x3f), 0x80 ||| (n &&& 0x3f)]
  else
    [0xf0 ||| (n >>> 18), 0x80 ||| ((n >>> 12) &&& 0x3f),
     0x80 ||| ((n >>> 6) &&& 0x3f), 0x80 ||| (n &&& 0x3f)]

def utf8Encode (l : List Char) : List Nat := (l.map utf8Bytes).flatten

/-! ## compute_offer_hash -/

/-- The normalization performed inside compute_offer_hash:
" ".join(raw_text.split()).strip().lower(). -/
def normalizeCodeL (l : List Char) : List Char :=
  pyLowerL (pyStrip (joinSpace (splitWs l)))

def compute_offer_hash (raw_text : String) : String :=
  sha256hex (utf8Encode (normalizeCodeL raw_text.data))

/-! ## verify_offer and the /verify route -/

/-- The request payload for /verify, with the Python .get defaults baked
in.  links = none models an absent key; Python treats an empty list the
same as an absent one (`payload.get("links") or extract_urls(...)`). -/
structure Payload where
  company_name : String := ""
  hr_email : String := ""
  raw_text : String := ""
  salary_amount : SalaryInput := .null
  salary_currency : String := "INR"
  salary_period : String := "month"
  job_role : String := ""
  region_hint : String := "india"
  links : Option (List String) := none
  interview : InterviewInfo := {}

/-- Observable outcomes of the blocking I/O performed during one
verify_offer call: the two HTTP(S) probes (authenticity check and
existence check each probe once) and the two LLM calls. -/
structure Oracles where
  auth_http : Bool := false
  auth_https : Bool := false
  exist_http : Bool := false
  exist_https : Bool := false
  doc_llm : Option String := none
  role_llm : Option String := none

structure VerifyResult where
  company_authenticity : CompanyAuthResult
  document_integrity : DocumentIntegrityResult
  language_risk : LanguageRiskResult
  salary_plausibility : SalaryCheckResult
  company_existence : CompanyExistenceResult
  link_risk : LinkRiskResult
  interview_plausibility : InterviewResult
  offer_structure : StructureMeta
  role_consistency : RoleConsistencyResult
  final_trust : FinalTrust

/-- verify_offer.  Past scam reports are NOT an input: the source builds
dummy_scam_stats with reports_count 0 and aggregates with that. -/
def verify_offer (p : Payload) (o : Oracles) : VerifyResult :=
  let urls :=
    match p.links with
    | some l => if l.isEmpty then extract_urls p.raw_text.data else l
    | none => extract_urls p.raw_text.data
  let company_auth := company_authenticity_check p.company_name p.hr_email o.auth_http o.auth_https
  let doc_integrity :=
    document_integrity_and_explainability p.raw_text p.company_name p.hr_email o.doc_llm
  let lang_risk := language_risk_check p.raw_text
  let salary_check :=
    salary_plausibility_check p.salary_amount p.salary_currency p.salary_period
      p.job_role p.region_hint
  let company_exist := company_existence_check p.company_name p.hr_email o.exist_http o.exist_https
  let role_cons := role_consistency_check p.job_role p.raw_text p.interview o.role_llm
  let link_risk := link_risk_check urls
  let interview_res := interview_plausibility_check p.interview
  let structure_res := structure_validation_check p.raw_text
  let final :=
    aggregate_final_score company_auth lang_risk salary_check link_risk interview_res
      structure_res doc_integrity role_cons company_exist 0
  { company_authenticity := company_auth
    document_integrity := doc_integrity
    language_risk := lang_risk
    salary_plausibility := salary_check
    company_existence := company_exist
    link_risk := link_risk
    interview_plausibility := interview_res
    offer_structure := structure_res
    role_consistency := role_cons
    final_trust := final }

structure VerifyResponse where
  offer_hash : String
  stored_reports_count : ℕ
  analysis : VerifyResult

/-- The /verify route of main.py: run verify_offer on the payload, then
attach the content hash and the persisted report stats (modelled by the
stored count for that hash) alongside the analysis. -/
def verify_endpoint (p : Payload) (o : Oracles) (stored_count : ℕ) : VerifyResponse :=
  { offer_hash := compute_offer_hash p.raw_text
    stored_reports_count := stored_count
    analysis := verify_offer p o }

/-! ## Spec-side definitions

These do not model source code; they transcribe the wording of spec
sentences so that refinement claims can compare the code against them. -/

/-- Modelled from the spec: the normalization §3 demands of any
reimplementation of the content hash — collapse every run of whitespace to
a single space (tracking whether the previous character was whitespace),
then trim, then lower-case. -/
def collapseWs : List Char → Bool → List Char
  | [], _ => []
  | c :: cs, prevWs =>
      if isPySpace c then
        if prevWs then collapseWs cs true else ' ' :: collapseWs cs true
      else c :: collapseWs cs false

/-- Modelled from the spec: collapse runs of whitespace, trim, lower-case. -/
def normalizeSpecL (l : List Char) : List Char :=
  pyLowerL (pyStrip (collapseWs l false))

/-- Modelled from claim C4's wording: all non-empty flags of every
sub-check in check order 4.1 to 4.8 (company authenticity, language,
salary, links, interview, structure, company existence, document) — of
which only the four checks whose results carry a flags list contribute —
followed by the derived summary flags, truncated to 12 entries. -/
def claimedReasons (company_auth : CompanyAuthResult) (lang_risk : LanguageRiskResult)
    (salary_check : SalaryCheckResult) (link_risk : LinkRiskResult)
    (interview_res : InterviewResult) (structure_res : StructureMeta)
    (company_exist : CompanyExistenceResult) (reports_count : ℕ) : List Flag :=
  (company_auth.flags ++ salary_check.flags ++ interview_res.flags ++ company_exist.flags ++
   (if lang_risk.risk_phrases.isEmpty then []
    else [Flag.riskLanguage lang_risk.risk_phrases]) ++
   (if lang_risk.whatsapp_telegram_mentions.isEmpty then [] else [Flag.whatsappMentions]) ++
   (if link_risk.suspicious_links.isEmpty then []
    else [Flag.suspiciousLinks link_risk.suspicious_links]) ++
   (if 0 < reports_count then [Flag.reportedScam reports_count] else []) ++
   (if structure_res.missing_sections.isEmpty then []
    else [Flag.missingSections structure_res.missing_sections])).take 12

/-- Modelled from claim C8's wording: every penalty applies whenever its
condition holds, independently and additively, with a floor of 0; in
particular a channel containing whatsapp/telegram AND phone/call draws
both channel penalties. -/
def interviewScoreClaimed (info : InterviewInfo) : ℤ :=
  let channel := pyLower info.channel
  let pNoInterview : ℤ := if !info.had_interview then 35 else 0
  let pWa : ℤ :=
    if info.had_interview &&
       (strContains channel "whatsapp" || strContains channel "telegram") then 30 else 0
  let pPh : ℤ :=
    if info.had_interview &&
       (strContains channel "phone" || strContains channel "call") then 10 else 0
  let pDur : ℤ :=
    match info.duration_minutes with
    | none => 0
    | some d => if d < 5 then 20 else if d < 15 then 10 else 0
  let pTech : ℤ := if info.asked_technical == some false then 20 else 0
  max (100 - pNoInterview - pWa - pPh - pDur - pTech) 0

/-! ## Helper lemmas: whitespace normalization (claim C2) -/

theorem length_dropWhile_le (p : Char → Bool) :
    ∀ l : List Char, (l.dropWhile p).length ≤ l.length := by
  intro l
  induction l with
  | nil => simp
  | cons c cs ih =>
      by_cases h : p c
      · simp only [List.dropWhile_cons, h, if_true]
        exact Nat.le_succ_of_le ih
      · simp [List.dropWhile_cons, h]

theorem splitWsAux_ws {c : Char} (h : isPySpace c = true) (cs : List Char) :
    splitWsAux (c :: cs) [] = splitWsAux cs [] := by
  simp [splitWsAux, h]

theorem splitWs_dropWhile : ∀ l : List Char, splitWs l = splitWs (l.dropWhile isPySpace) := by
  intro l
  induction l with
  | nil => rfl
  | cons c cs ih =>
      by_cases h : isPySpace c
      · rw [List.dropWhile_cons, if_pos h, ← ih]
        exact splitWsAux_ws h cs
      · rw [List.dropWhile_cons, if_neg h]

theorem splitWsAux_acc :
    ∀ (l acc : List Char), acc ≠ [] →
      splitWsAux l acc =
        (acc.reverse ++ l.takeWhile (fun c => !isPySpace c)) ::
          splitWs (l.dropWhile (fun c => !isPySpace c)) := by
  intro l
  induction l with
  | nil =>
      intro acc hacc
      simp [splitWsAux, splitWs, List.isEmpty_iff, hacc]
  | cons c cs ih =>
      intro acc hacc
      by_cases h : isPySpace c
      · have ht : List.takeWhile (fun c => !isPySpace c) (c :: cs) = [] := by
          simp [List.takeWhile_cons, h]
        have hd : List.dropWhile (fun c => !isPySpace c) (c :: cs) = c :: cs := by
          simp [List.dropWhile_cons, h]
        rw [ht, hd, List.append_nil]
        have h1 : splitWsAux (c :: cs) acc = acc.reverse :: splitWsAux cs [] := by
          simp [splitWsAux, h, List.isEmpty_iff, hacc]
        rw [h1]
        unfold splitWs
        rw [splitWsAux_ws h cs]
      · have ht : List.takeWhile (fun c => !isPySpace c) (c :: cs) =
            c :: List.takeWhile (fun c => !isPySpace c) cs := by
          simp [List.takeWhile_cons, h]
        have hd : List.dropWhile (fun c => !isPySpace c) (c :: cs) =
            List.dropWhile (fun c => !isPySpace c) cs := by
          simp [List.dropWhile_cons, h]
        have step : splitWsAux (c :: cs) acc = splitWsAux cs (c :: acc) := by
          simp [splitWsAux, h]
        rw [step, ih (c :: acc) (by simp), ht, hd]
        simp

theorem collapseWs_true :
    ∀ l : List Char, collapseWs l true = collapseWs (l.dropWhile isPySpace) false := by
  intro l
  induction l with
  | nil => rfl
  | cons c cs ih =>
      by_cases h : isPySpace c
      · rw [List.dropWhile_cons, if_pos h, ← ih]
        simp [collapseWs, h]
      · rw [List.dropWhile_cons, if_neg h]
        simp [collapseWs, h]

theorem collapseWs_word :
    ∀ l : List Char,
      collapseWs l false =
        l.takeWhile (fun c => !isPySpace c) ++
          (if (l.dropWhile (fun c => !isPySpace c)).isEmpty then []
           else ' ' :: collapseWs (l.dropWhile (fun c => !isPySpace c)).tail true) := by
  intro l
  induction l with
  | nil => rfl
  | cons c cs ih =>
      by_cases h : isPySpace c
      · have hcne : (fun c => !isPySpace c) c = false := by simp [h]
        rw [List.takeWhile_cons, List.dropWhile_cons]
        simp only [hcne, if_false, List.nil_append, List.isEmpty_cons, List.tail_cons]
        simp [collapseWs, h]
      · have hcne : (fun c => !isPySpace c) c = true := by simp [h]
        rw [List.takeWhile_cons, List.dropWhile_cons]
        simp only [hcne, if_true, List.cons_append]
        rw [show collapseWs (c :: cs) false = c :: collapseWs cs false by simp [collapseWs, h]]
        rw [ih]

theorem dropWhile_of_exists_not {p : Char → Bool} {u : List Char}
    (h : ∃ c ∈ u, p c = false) (v : List Char) :
    (u ++ v).dropWhile p = u.dropWhile p ++ v := by
  have hne : (u.dropWhile p).isEmpty = false := by
    rcases h with ⟨c, hc, hpc⟩
    cases hd : u.dropWhile p with
    | nil =>
        have := List.dropWhile_eq_nil_iff.mp hd c hc
        rw [this] at hpc
        simp at hpc
    | cons x xs => rfl
  rw [List.dropWhile_append, hne]
  simp

theorem stripRightWs_append {a b : List Char}
    (h : ∃ c ∈ b, isPySpace c = false) :
    stripRightWs (a ++ b) = a ++ stripRightWs b := by
  unfold stripRightWs
  rw [List.reverse_append]
  rw [dropWhile_of_exists_not (by simpa using h) a.reverse]
  rw [List.reverse_append, List.reverse_reverse]

theorem dropWhile_head_false {p : Char → Bool} :
    ∀ {l : List Char} {a : Char} {t : List Char}, l.dropWhile p = a :: t → p a = false := by
  intro l
  induction l with
  | nil => intro a t h; simp at h
  | cons x xs ih =>
      intro a t h
      by_cases hx : p x
      · rw [List.dropWhile_cons, if_pos hx] at h
        exact ih h
      · rw [List.dropWhile_cons, if_neg hx] at h
        injection h with h1 h2
        rw [← h1]
        simpa using hx

theorem pyStrip_cons_nonws {c : Char} (h : isPySpace c = false) (l : List Char) :
    pyStrip (c :: l) = stripRightWs (c :: l) := by
  unfold pyStrip
  rw [List.dropWhile_cons, if_neg (by simp [h])]

theorem stripRightWs_append_space (x : List Char) :
    stripRightWs (x ++ [' ']) = stripRightWs x := by
  unfold stripRightWs
  rw [List.reverse_append]
  simp [List.dropWhile_cons, show isPySpace ' ' = true from by decide]

theorem stripRight_word_sep {x : List Char} {d : Char}
    (hd : isPySpace d = false) (tw : List Char) :
    stripRightWs (tw ++ ' ' :: d :: x) = tw ++ ' ' :: stripRightWs (d :: x) := by
  have h1 : stripRightWs (tw ++ ' ' :: d :: x) = tw ++ stripRightWs (' ' :: d :: x) :=
    stripRightWs_append ⟨d, by simp, hd⟩
  have h2 : stripRightWs (' ' :: d :: x) = ' ' :: stripRightWs (d :: x) := by
    have h3 := stripRightWs_append (a := [' ']) (b := d :: x) ⟨d, by simp, hd⟩
    simpa using h3
  rw [h1, h2]

theorem joinSpace_cons_head (c : Char) (w : List Char) (rest : List (List Char)) :
    ∃ t, joinSpace ((c :: w) :: rest) = c :: t := by
  cases rest with
  | nil => exact ⟨w, rfl⟩
  | cons v vs => exact ⟨w ++ ' ' :: joinSpace (v :: vs), rfl⟩

theorem splitWs_cons_nonws {c : Char} (hc : isPySpace c = false) (cs : List Char) :
    splitWs (c :: cs) =
      (c :: cs.takeWhile (fun x => !isPySpace x)) ::
        splitWs (cs.dropWhile (fun x => !isPySpace x)) := by
  have h1 : splitWs (c :: cs) = splitWsAux cs [c] := by
    simp [splitWs, splitWsAux, hc]
  rw [h1, splitWsAux_acc cs [c] (by simp)]
  simp

/-- Core of claim C2: the code's join-split-strip normalization produces the
same character list as the spec's collapse-runs-then-trim normalization. -/
theorem stripWords_eq_aux :
    ∀ (n : ℕ) (l : List Char), l.length ≤ n →
      pyStrip (joinSpace (splitWs l)) = pyStrip (collapseWs l false) := by
  intro n
  induction n with
  | zero =>
      intro l hl
      have hnil : l = [] := List.length_eq_zero.mp (Nat.le_zero.mp hl)
      subst hnil
      rfl
  | succ n ih =>
      intro l hl
      match l with
      | [] => rfl
      | c :: cs =>
        have hcs : cs.length ≤ n := by
          simp only [List.length_cons] at hl
          omega
        by_cases hc : isPySpace c
        · have e1 : splitWs (c :: cs) = splitWs (cs.dropWhile isPySpace) := by
            have h1 : splitWs (c :: cs) = splitWs cs := splitWsAux_ws hc cs
            rw [h1]
            exact splitWs_dropWhile cs
          have e2 : collapseWs (c :: cs) false =
              ' ' :: collapseWs (cs.dropWhile isPySpace) false := by
            rw [show collapseWs (c :: cs) false = ' ' :: collapseWs cs true from by
              simp [collapseWs, hc]]
            rw [collapseWs_true cs]
          have e3 : ∀ z : List Char, pyStrip (' ' :: z) = pyStrip z := by
            intro z
            unfold pyStrip
            rw [List.dropWhile_cons, if_pos (by decide)]
          rw [e1, e2, e3]
          exact ih _ (le_trans (length_dropWhile_le _ cs) hcs)
        · have hc' : isPySpace c = false := by simpa using hc
          rw [splitWs_cons_nonws hc' cs]
          rw [show collapseWs (c :: cs) false = c :: collapseWs cs false from by
            simp [collapseWs, hc']]
          rw [collapseWs_word cs]
          cases hdw : cs.dropWhile (fun x => !isPySpace x) with
          | nil =>
              simp [joinSpace, splitWs, splitWsAux]
          | cons w r =>
              have hw : isPySpace w = true := by
                have h4 := dropWhile_head_false hdw
                simpa using h4
              rw [if_neg (by simp)]
              simp only [List.tail_cons]
              have hlenr : r.length + 1 ≤ cs.length := by
                have h5 := length_dropWhile_le (fun x => !isPySpace x) cs
                rw [hdw] at h5
                simpa using h5
              have esplit2 : splitWs (w :: r) = splitWs (r.dropWhile isPySpace) := by
                have h6 : splitWs (w :: r) = splitWs r := splitWsAux_ws hw r
                rw [h6]
                exact splitWs_dropWhile r
              rw [esplit2, collapseWs_true r]
              cases hr2 : r.dropWhile isPySpace with
              | nil =>
                  show pyStrip (c :: cs.takeWhile (fun x => !isPySpace x)) =
                    pyStrip (c :: (cs.takeWhile (fun x => !isPySpace x) ++ [' ']))
                  rw [pyStrip_cons_nonws hc', pyStrip_cons_nonws hc', ← List.cons_append,
                    stripRightWs_append_space]
              | cons d r2 =>
                  have hd : isPySpace d = false := dropWhile_head_false hr2
                  have hlenr2 : (d :: r2).length ≤ n := by
                    have h7 := length_dropWhile_le isPySpace r
                    rw [hr2] at h7
                    simp only [List.length_cons] at h7 ⊢
                    omega
                  have ihd := ih (d :: r2) hlenr2
                  rw [splitWs_cons_nonws hd r2] at ihd ⊢
                  obtain ⟨t, ht⟩ := joinSpace_cons_head d
                    (r2.takeWhile (fun x => !isPySpace x))
                    (splitWs (r2.dropWhile (fun x => !isPySpace x)))
                  have hcol3 : collapseWs (d :: r2) false = d :: collapseWs r2 false := by
                    simp [collapseWs, hd]
                  rw [hcol3] at ihd
                  show pyStrip ((c :: cs.takeWhile (fun x => !isPySpace x)) ++ ' ' ::
                      joinSpace ((d :: r2.takeWhile (fun x => !isPySpace x)) ::
                        splitWs (r2.dropWhile (fun x => !isPySpace x)))) =
                    pyStrip (c :: (cs.takeWhile (fun x => !isPySpace x) ++ ' ' ::
                      collapseWs (d :: r2) false))
                  rw [ht, hcol3]
                  rw [show (c :: cs.takeWhile (fun x => !isPySpace x)) ++ ' ' :: d :: t =
                      c :: (cs.takeWhile (fun x => !isPySpace x) ++ ' ' :: d :: t) from rfl]
                  rw [pyStrip_cons_nonws hc', pyStrip_cons_nonws hc']
                  rw [← List.cons_append, ← List.cons_append]
                  rw [stripRight_word_sep hd, stripRight_word_sep hd]
                  rw [ht] at ihd
                  rw [pyStrip_cons_nonws hd, pyStrip_cons_nonws hd] at ihd
                  rw [ihd]

/-- The two normalizations agree on every character list. -/
theorem normalize_code_eq_spec (l : List Char) : normalizeCodeL l = normalizeSpecL l := by
  unfold normalizeCodeL normalizeSpecL
  rw [stripWords_eq_aux l.length l le_rfl]

/-! ## Helper lemmas: score bounds (claim C1) -/

theorem clamp_bounds (x : ℤ) : 0 ≤ max (min x 100) 0 ∧ max (min x 100) 0 ≤ 100 := by
  omega

theorem company_auth_score_bounds (cn he : String) (ho hs : Bool) :
    0 ≤ (company_authenticity_check cn he ho hs).score ∧
      (company_authenticity_check cn he ho hs).score ≤ 100 := by
  unfold company_authenticity_check
  split
  · exact ⟨by norm_num, by norm_num⟩
  · exact clamp_bounds _

theorem language_score_bounds (t : String) :
    0 ≤ (language_risk_check t).score ∧ (language_risk_check t).score ≤ 100 := by
  unfold language_risk_check
  dsimp only
  constructor
  · omega
  · have h1 : (0 : ℤ) ≤ ((RISKY_LANGUAGE_PATTERNS.filter
        (fun p => reSearch p.2 (pyLower t).data)).map (·.1)).length := by positivity
    have h2 : (0 : ℤ) ≤ ((WHATSAPP_TELEGRAM_PATTERNS.filter
        (fun p => reSearch p.2 (pyLower t).data)).map (·.1)).length := by positivity
    omega

theorem salary_score_bounds (a : SalaryInput) (cur per role region : String) :
    0 ≤ (salary_plausibility_check a cur per role region).score ∧
      (salary_plausibility_check a cur per role region).score ≤ 100 := by
  unfold salary_plausibility_check
  split
  · exact ⟨by norm_num, by norm_num⟩
  · split
    · exact ⟨by norm_num, by norm_num⟩
    · split_ifs <;> exact ⟨by norm_num, by norm_num⟩

theorem processUrl_score_le (st : LinkState) (u : String) :
    (processUrl st u).score ≤ st.score := by
  unfold processUrl
  dsimp only
  split_ifs <;> omega

theorem foldl_processUrl_le (urls : List String) :
    ∀ st : LinkState, (urls.foldl processUrl st).score ≤ st.score := by
  induction urls with
  | nil => intro st; simp
  | cons u us ih =>
      intro st
      exact le_trans (ih (processUrl st u)) (processUrl_score_le st u)

theorem link_score_bounds (urls : List String) :
    0 ≤ (link_risk_check urls).score ∧ (link_risk_check urls).score ≤ 100 := by
  unfold link_risk_check
  dsimp only
  have h := foldl_processUrl_le urls { score := 100, suspicious := [], short := [] }
  have h100 : ({ score := 100, suspicious := [], short := [] } : LinkState).score = 100 := rfl
  rw [h100] at h
  omega

theorem interview_score_bounds (info : InterviewInfo) :
    0 ≤ (interview_plausibility_check info).score ∧
      (interview_plausibility_check info).score ≤ 100 := by
  unfold interview_plausibility_check
  dsimp only
  split_ifs <;>
    cases info.duration_minutes <;>
      simp only [] <;> (try split_ifs) <;> omega

theorem structureScore_bounds (p : ℕ) (ha hi : Bool) (hp : p ≤ 6) :
    0 ≤ structureScore p ha hi ∧ structureScore p ha hi ≤ 100 := by
  unfold structureScore
  dsimp only
  have hb : (p * 100) / 6 ≤ 100 := by omega
  split_ifs <;> omega

theorem structure_score_bounds (t : String) :
    0 ≤ (structure_validation_check t).score ∧
      (structure_validation_check t).score ≤ 100 := by
  unfold structure_validation_check
  dsimp only
  exact structureScore_bounds _ _ _ (Nat.sub_le _ _)

theorem doc_score_bounds (r c e : String) (llm : Option String) :
    0 ≤ (document_integrity_and_explainability r c e llm).score ∧
      (document_integrity_and_explainability r c e llm).score ≤ 100 := by
  unfold document_integrity_and_explainability
  dsimp only
  split
  · exact ⟨by norm_num, by norm_num⟩
  · omega

theorem role_score_bounds (j r : String) (i : InterviewInfo) (llm : Option String) :
    0 ≤ (role_consistency_check j r i llm).score ∧
      (role_consistency_check j r i llm).score ≤ 100 := by
  unfold role_consistency_check
  dsimp only
  split
  · exact ⟨by norm_num, by norm_num⟩
  · omega

theorem existence_score_bounds (cn he : String) (ho hs : Bool) :
    0 ≤ (company_existence_check cn he ho hs).score ∧
      (company_existence_check cn he ho hs).score ≤ 100 := by
  unfold company_existence_check
  split
  · exact ⟨by norm_num, by norm_num⟩
  · split_ifs <;> exact ⟨by norm_num, by norm_num⟩

theorem scamTrust_bounds (rc : ℕ) : 0 ≤ scamTrust rc ∧ scamTrust rc ≤ 100 := by
  unfold scamTrust
  have h : (0 : ℤ) ≤ (rc : ℤ) := Int.ofNat_nonneg rc
  omega

theorem pyRound_bounds {q : ℚ} {a b : ℤ} (ha : (a : ℚ) ≤ q) (hb : q ≤ (b : ℚ)) :
    a ≤ pyRound q ∧ pyRound q ≤ b := by
  have hfa : a ≤ ⌊q⌋ := Int.le_floor.mpr ha
  have hfbq : (⌊q⌋ : ℚ) ≤ (b : ℚ) := le_trans (Int.floor_le q) hb
  have hfb : ⌊q⌋ ≤ b := by exact_mod_cast hfbq
  have hkey : ¬(q - ⌊q⌋ < 1 / 2) → ⌊q⌋ + 1 ≤ b := by
    intro hr
    push_neg at hr
    have h1 : (⌊q⌋ : ℚ) + 1 / 2 ≤ q := by linarith
    have h2 : (⌊q⌋ : ℚ) < (b : ℚ) := by linarith
    have h3 : ⌊q⌋ < b := by exact_mod_cast h2
    omega
  unfold pyRound
  split_ifs with h1 h2 h3
  · exact ⟨hfa, hfb⟩
  · exact ⟨by omega, hkey h1⟩
  · exact ⟨hfa, hfb⟩
  · exact ⟨by omega, hkey h1⟩

theorem pyRound_intCast (z : ℤ) : pyRound ((z : ℤ) : ℚ) = z := by
  unfold pyRound
  rw [Int.floor_intCast]
  rw [if_pos (by norm_num)]

theorem aggregate_score_def (A : CompanyAuthResult) (L : LanguageRiskResult)
    (S : SalaryCheckResult) (Li : LinkRiskResult) (I : InterviewResult)
    (St : StructureMeta) (D : DocumentIntegrityResult) (Ro : RoleConsistencyResult)
    (Ce : CompanyExistenceResult) (rc : ℕ) :
    (aggregate_final_score A L S Li I St D Ro Ce rc).score =
      pyRound ((A.score : ℚ) * 0.2 + (L.score : ℚ) * 0.15 + (S.score : ℚ) * 0.1 +
        (Li.score : ℚ) * 0.05 + (I.score : ℚ) * 0.1 + (St.score : ℚ) * 0.1 +
        (D.score : ℚ) * 0.1 + (Ro.score : ℚ) * 0.1 + (Ce.score : ℚ) * 0.05 +
        (scamTrust rc : ℚ) * 0.05) := rfl

theorem aggregate_score_bounds (A : CompanyAuthResult) (L : LanguageRiskResult)
    (S : SalaryCheckResult) (Li : LinkRiskResult) (I : InterviewResult)
    (St : StructureMeta) (D : DocumentIntegrityResult) (Ro : RoleConsistencyResult)
    (Ce : CompanyExistenceResult) (rc : ℕ)
    (hA : 0 ≤ A.score ∧ A.score ≤ 100) (hL : 0 ≤ L.score ∧ L.score ≤ 100)
    (hS : 0 ≤ S.score ∧ S.score ≤ 100) (hLi : 0 ≤ Li.score ∧ Li.score ≤ 100)
    (hI : 0 ≤ I.score ∧ I.score ≤ 100) (hSt : 0 ≤ St.score ∧ St.score ≤ 100)
    (hD : 0 ≤ D.score ∧ D.score ≤ 100) (hRo : 0 ≤ Ro.score ∧ Ro.score ≤ 100)
    (hCe : 0 ≤ Ce.score ∧ Ce.score ≤ 100) :
    0 ≤ (aggregate_final_score A L S Li I St D Ro Ce rc).score ∧
      (aggregate_final_score A L S Li I St D Ro Ce rc).score ≤ 100 := by
  have hSc := scamTrust_bounds rc
  have c1 : (0 : ℚ) ≤ (A.score : ℚ) ∧ (A.score : ℚ) ≤ 100 := by
    exact_mod_cast hA
  have c2 : (0 : ℚ) ≤ (L.score : ℚ) ∧ (L.score : ℚ) ≤ 100 := by
    exact_mod_cast hL
  have c3 : (0 : ℚ) ≤ (S.score : ℚ) ∧ (S.score : ℚ) ≤ 100 := by
    exact_mod_cast hS
  have c4 : (0 : ℚ) ≤ (Li.score : ℚ) ∧ (Li.score : ℚ) ≤ 100 := by
    exact_mod_cast hLi
  have c5 : (0 : ℚ) ≤ (I.score : ℚ) ∧ (I.score : ℚ) ≤ 100 := by
    exact_mod_cast hI
  have c6 : (0 : ℚ) ≤ (St.score : ℚ) ∧ (St.score : ℚ) ≤ 100 := by
    exact_mod_cast hSt
  have c7 : (0 : ℚ) ≤ (D.score : ℚ) ∧ (D.score : ℚ) ≤ 100 := by
    exact_mod_cast hD
  have c8 : (0 : ℚ) ≤ (Ro.score : ℚ) ∧ (Ro.score : ℚ) ≤ 100 := by
    exact_mod_cast hRo
  have c9 : (0 : ℚ) ≤ (Ce.score : ℚ) ∧ (Ce.score : ℚ) ≤ 100 := by
    exact_mod_cast hCe
  have c10 : (0 : ℚ) ≤ (scamTrust rc : ℚ) ∧ (scamTrust rc : ℚ) ≤ 100 := by
    exact_mod_cast hSc
  unfold aggregate_final_score
  dsimp only
  have hlow : ((0 : ℤ) : ℚ) ≤
      (A.score : ℚ) * 0.2 + (L.score : ℚ) * 0.15 + (S.score : ℚ) * 0.1 +
      (Li.score : ℚ) * 0.05 + (I.score : ℚ) * 0.1 + (St.score : ℚ) * 0.1 +
      (D.score : ℚ) * 0.1 + (Ro.score : ℚ) * 0.1 + (Ce.score : ℚ) * 0.05 +
      (scamTrust rc : ℚ) * 0.05 := by
    push_cast
    nlinarith [c1.1, c2.1, c3.1, c4.1, c5.1, c6.1, c7.1, c8.1, c9.1, c10.1]
  have hhigh : (A.score : ℚ) * 0.2 + (L.score : ℚ) * 0.15 + (S.score : ℚ) * 0.1 +
      (Li.score : ℚ) * 0.05 + (I.score : ℚ) * 0.1 + (St.score : ℚ) * 0.1 +
      (D.score : ℚ) * 0.1 + (Ro.score : ℚ) * 0.1 + (Ce.score : ℚ) * 0.05 +
      (scamTrust rc : ℚ) * 0.05 ≤ ((100 : ℤ) : ℚ) := by
    push_cast
    nlinarith [c1.2, c2.2, c3.2, c4.2, c5.2, c6.2, c7.2, c8.2, c9.2, c10.2]
  exact pyRound_bounds hlow hhigh

/-! ## Helper lemmas: salary benchmarks and parsing (claim C5) -/

theorem bench_bounds {k : String} {low high : ℚ}
    (h : SALARY_BENCHMARKS.lookup k = some (low, high)) :
    0 ≤ low ∧ low ≤ high ∧ 0 < high := by
  simp only [SALARY_BENCHMARKS, List.lookup] at h
  repeat' split at h
  all_goals
    first
      | (rw [Option.some.injEq, Prod.mk.injEq] at h
         obtain ⟨h1, h2⟩ := h
         subst h1
         subst h2
         norm_num)
      | exact absurd h (by simp)

theorem findNumber_none {l : List Char} (h : ∀ c ∈ l, c.isDigit = false) :
    findNumber l = none := by
  induction l with
  | nil => rfl
  | cons c cs ih =>
      unfold findNumber
      rw [if_neg (by simp [h c (by simp)])]
      exact ih (fun x hx => h x (by simp [hx]))

theorem parse_nondigit_none {s : String} (h : ∀ c ∈ s.data, c.isDigit = false) :
    parse_salary_amount (.str s) = none := by
  unfold parse_salary_amount
  exact findNumber_none (fun c hc => h c (List.mem_of_mem_filter hc))

/-! ## Helper lemma: the structure score as a single floored formula -/

theorem structureScore_eq (p : ℕ) (a i : Bool) :
    structureScore p a i =
      max ((((p * 100) / 6 : ℕ) : ℤ) - (if a then 0 else 10) - (if i then 0 else 5)) 0 := by
  unfold structureScore
  dsimp only
  split_ifs <;> simp_all <;> omega

/-! ## Claim theorems -/

/-- C1: for every input (network and LLM outcomes included) each of the nine
sub-checks returns a score in [0, 100], and for every combination of
sub-results whose scores lie in [0, 100] and every natural report count,
aggregate_final_score returns a score in [0, 100]. -/
theorem C1_scores_in_range :
    (∀ cn he ho hs, 0 ≤ (company_authenticity_check cn he ho hs).score ∧
      (company_authenticity_check cn he ho hs).score ≤ 100) ∧
    (∀ t, 0 ≤ (language_risk_check t).score ∧ (language_risk_check t).score ≤ 100) ∧
    (∀ a cur per role region, 0 ≤ (salary_plausibility_check a cur per role region).score ∧
      (salary_plausibility_check a cur per role region).score ≤ 100) ∧
    (∀ urls, 0 ≤ (link_risk_check urls).score ∧ (link_risk_check urls).score ≤ 100) ∧
    (∀ info, 0 ≤ (interview_plausibility_check info).score ∧
      (interview_plausibility_check info).score ≤ 100) ∧
    (∀ t, 0 ≤ (structure_validation_check t).score ∧
      (structure_validation_check t).score ≤ 100) ∧
    (∀ r c e llm, 0 ≤ (document_integrity_and_explainability r c e llm).score ∧
      (document_integrity_and_explainability r c e llm).score ≤ 100) ∧
    (∀ j r i llm, 0 ≤ (role_consistency_check j r i llm).score ∧
      (role_consistency_check j r i llm).score ≤ 100) ∧
    (∀ cn he ho hs, 0 ≤ (company_existence_check cn he ho hs).score ∧
      (company_existence_check cn he ho hs).score ≤ 100) ∧
    (∀ A L S Li I St D Ro Ce rc,
      (0 ≤ A.score ∧ A.score ≤ 100) → (0 ≤ L.score ∧ L.score ≤ 100) →
      (0 ≤ S.score ∧ S.score ≤ 100) → (0 ≤ Li.score ∧ Li.score ≤ 100) →
      (0 ≤ I.score ∧ I.score ≤ 100) → (0 ≤ St.score ∧ St.score ≤ 100) →
      (0 ≤ D.score ∧ D.score ≤ 100) → (0 ≤ Ro.score ∧ Ro.score ≤ 100) →
      (0 ≤ Ce.score ∧ Ce.score ≤ 100) →
      0 ≤ (aggregate_final_score A L S Li I St D Ro Ce rc).score ∧
        (aggregate_final_score A L S Li I St D Ro Ce rc).score ≤ 100) :=
  ⟨company_auth_score_bounds, language_score_bounds, salary_score_bounds,
   link_score_bounds, interview_score_bounds, structure_score_bounds,
   doc_score_bounds, role_score_bounds, existence_score_bounds,
   fun A L S Li I St D Ro Ce rc hA hL hS hLi hI hSt hD hRo hCe =>
     aggregate_score_bounds A L S Li I St D Ro Ce rc hA hL hS hLi hI hSt hD hRo hCe⟩

/-- C1 witness: the aggregate stays in range at one concrete combination of
in-range sub-results and report count 3. -/
theorem C1_scores_in_range_witness :
    0 ≤ (aggregate_final_score
      { score := 75, flags := [], domain := none, used_free_email := false,
        domain_reachable := false, https_ok := false }
      { score := 90, risk_phrases := [], whatsapp_telegram_mentions := [] }
      { score := 100, flags := [], parsed_amount := none }
      { score := 100, suspicious_links := [], short_links := [] }
      { score := 65, flags := [] }
      { score := 50, sections_found := [], missing_sections := [] }
      { score := 60, summary := "" }
      { score := 60, summary := "" }
      { score := 70, flags := [], checked_domain := none } 3).score ∧
    (aggregate_final_score
      { score := 75, flags := [], domain := none, used_free_email := false,
        domain_reachable := false, https_ok := false }
      { score := 90, risk_phrases := [], whatsapp_telegram_mentions := [] }
      { score := 100, flags := [], parsed_amount := none }
      { score := 100, suspicious_links := [], short_links := [] }
      { score := 65, flags := [] }
      { score := 50, sections_found := [], missing_sections := [] }
      { score := 60, summary := "" }
      { score := 60, summary := "" }
      { score := 70, flags := [], checked_domain := none } 3).score ≤ 100 :=
  C1_scores_in_range.2.2.2.2.2.2.2.2.2
    { score := 75, flags := [], domain := none, used_free_email := false,
      domain_reachable := false, https_ok := false }
    { score := 90, risk_phrases := [], whatsapp_telegram_mentions := [] }
    { score := 100, flags := [], parsed_amount := none }
    { score := 100, suspicious_links := [], short_links := [] }
    { score := 65, flags := [] }
    { score := 50, sections_found := [], missing_sections := [] }
    { score := 60, summary := "" }
    { score := 60, summary := "" }
    { score := 70, flags := [], checked_domain := none } 3
    (by norm_num) (by norm_num) (by norm_num) (by norm_num) (by norm_num)
    (by norm_num) (by norm_num) (by norm_num) (by norm_num)

/-- C2: compute_offer_hash hashes deterministically through the announced
normalization: it equals the SHA-256 hex digest of the input after
collapsing whitespace runs to single spaces, trimming and lower-casing, so
any two texts with the same normalization collide; in particular
"Pay  NOW" and "pay now" hash identically. -/
theorem C2_offer_hash_normalized :
    (∀ s : String, compute_offer_hash s = sha256hex (utf8Encode (normalizeSpecL s.data))) ∧
    (∀ s t : String, normalizeSpecL s.data = normalizeSpecL t.data →
      compute_offer_hash s = compute_offer_hash t) ∧
    compute_offer_hash "Pay  NOW" = compute_offer_hash "pay now" := by
  have key : ∀ s : String,
      compute_offer_hash s = sha256hex (utf8Encode (normalizeSpecL s.data)) := by
    intro s
    unfold compute_offer_hash
    rw [normalize_code_eq_spec]
  refine ⟨key, ?_, ?_⟩
  · intro s t h
    rw [key s, key t, h]
  · have h : normalizeCodeL "Pay  NOW".data = normalizeCodeL "pay now".data := by decide
    unfold compute_offer_hash
    rw [h]

/-- C2 witness: the insensitivity part applied at the concrete pair. -/
theorem C2_offer_hash_normalized_witness :
    normalizeSpecL "Pay  NOW".data = normalizeSpecL "pay now".data ∧
    compute_offer_hash "Pay  NOW" = compute_offer_hash "pay now" :=
  ⟨by decide, C2_offer_hash_normalized.2.1 "Pay  NOW" "pay now" (by decide)⟩

/-- C10: the language-risk sub-score always lies in [10, 100]: the
risk-phrase deduction is capped at 70 and the informal-channel deduction at
20, so the floor 0 is never reached. -/
theorem C10_language_score_floor (t : String) :
    10 ≤ (language_risk_check t).score ∧ (language_risk_check t).score ≤ 100 := by
  unfold language_risk_check
  dsimp only
  constructor <;> omega

/-- C6: the scam-report sub-score used by aggregate_final_score equals
max(0, 100 − 15·reports): 0 reports give 100, 3 give 55, any count of 7 or
more gives 0; and the aggregate's final score is the rounded weighted sum
whose last summand weighs exactly this sub-score by 0.05. -/
theorem C6_scam_trust_formula :
    (∀ rc : ℕ, scamTrust rc = max 0 (100 - 15 * (rc : ℤ))) ∧
    scamTrust 0 = 100 ∧ scamTrust 3 = 55 ∧
    (∀ rc : ℕ, 7 ≤ rc → scamTrust rc = 0) ∧
    (∀ A L S Li I St D Ro Ce rc,
      (aggregate_final_score A L S Li I St D Ro Ce rc).score =
        pyRound ((A.score : ℚ) * 0.2 + (L.score : ℚ) * 0.15 + (S.score : ℚ) * 0.1 +
          (Li.score : ℚ) * 0.05 + (I.score : ℚ) * 0.1 + (St.score : ℚ) * 0.1 +
          (D.score : ℚ) * 0.1 + (Ro.score : ℚ) * 0.1 + (Ce.score : ℚ) * 0.05 +
          (scamTrust rc : ℚ) * 0.05)) := by
  refine ⟨?_, by decide, by decide, ?_, ?_⟩
  · intro rc
    unfold scamTrust
    omega
  · intro rc h
    unfold scamTrust
    omega
  · intro A L S Li I St D Ro Ce rc
    rfl

/-- C6 witness: the 7-or-more clause applied at count 8. -/
theorem C6_scam_trust_formula_witness : scamTrust 8 = 0 :=
  C6_scam_trust_formula.2.2.2.1 8 (by norm_num)

/-- C7: the structure score is the floored integer (found/6)·100 over the
six required sections, minus 10 when the address section is missing and 5
when the company-IDs section is missing, floored at 0 (the manager section
is tracked but never penalized); a text with keywords for all six required
sections plus address and company IDs scores 100, and a keyword-free text
scores 0. -/
theorem C7_structure_score :
    (∀ t : String,
      (structure_validation_check t).score =
        max ((Int.ofNat ((requiredKeys.length -
              (structure_validation_check t).missing_sections.length) * 100 / 6)) -
          (if ((structure_validation_check t).sections_found.lookup "address").getD false
           then 0 else 10) -
          (if ((structure_validation_check t).sections_found.lookup "company_ids").getD false
           then 0 else 5)) 0) ∧
    (structure_validation_check
      "offer id registered office date of joining reporting manager designation ctc terms and conditions hr contact gst").score
      = 100 ∧
    (structure_validation_check "hello").score = 0 := by
  refine ⟨?_, by decide, by decide⟩
  intro t
  unfold structure_validation_check
  dsimp only
  exact structureScore_eq _ _ _

/-- C8 counterexample: for an interview over the channel "whatsapp call"
(30 minutes, technical questions asked) the code charges only the
WhatsApp/Telegram penalty — the phone/call penalty sits in an elif — so the
score is 70, while the claim's independent-additive reading predicts 60. -/
theorem C8_channel_penalty_counterexample :
    (interview_plausibility_check
      { had_interview := true, channel := "whatsapp call",
        duration_minutes := some 30, asked_technical := some true }).score = 70 ∧
    interviewScoreClaimed
      { had_interview := true, channel := "whatsapp call",
        duration_minutes := some 30, asked_technical := some true } = 60 ∧
    (interview_plausibility_check
      { had_interview := true, channel := "whatsapp call",
        duration_minutes := some 30, asked_technical := some true }).score ≠
      interviewScoreClaimed
        { had_interview := true, channel := "whatsapp call",
          duration_minutes := some 30, asked_technical := some true } := by
  refine ⟨by decide, by decide, by decide⟩

/-- C8 (amended): the interview penalties are additive with a floor of 0,
except that the two channel penalties are mutually exclusive: no interview
draws 35; otherwise a whatsapp/telegram channel draws 30, and only a
channel with neither of those but containing phone/call draws 10; a
duration under 5 minutes draws 20, one of 5 to 14 minutes draws 10; an
explicit asked_technical = false draws 20. -/
theorem C8_interview_penalties (info : InterviewInfo) :
    (interview_plausibility_check info).score =
      max ((100 : ℤ) -
        ((if !info.had_interview then 35
          else if strContains (pyLower info.channel) "whatsapp" ||
                  strContains (pyLower info.channel) "telegram" then 30
          else if strContains (pyLower info.channel) "phone" ||
                  strContains (pyLower info.channel) "call" then 10
          else 0) : ℤ) -
        ((match info.duration_minutes with
          | none => 0
          | some d => if d < 5 then 20 else if d < 15 then 10 else 0) : ℤ) -
        ((if info.asked_technical == some false then 20 else 0) : ℤ)) 0 := by
  unfold interview_plausibility_check
  dsimp only

/-- C9: when the summarizer is unavailable (empty reply) or its output has
no SCORE line, both LLM-delegated checks return the default 60; when a
SCORE line is present the extracted integer is clamped to [0, 100]. -/
theorem C9_llm_default_and_clamp (r c e j : String) (i : InterviewInfo)
    (llm : Option String) :
    (llm = none → extractScore (llm.getD "") = none) ∧
    (extractScore (llm.getD "") = none →
      (document_integrity_and_explainability r c e llm).score = 60 ∧
      (role_consistency_check j r i llm).score = 60) ∧
    (∀ n, extractScore (llm.getD "") = some n →
      (document_integrity_and_explainability r c e llm).score = max 0 (min 100 (n : ℤ)) ∧
      (role_consistency_check j r i llm).score = max 0 (min 100 (n : ℤ)) ∧
      0 ≤ max 0 (min 100 (n : ℤ)) ∧ max 0 (min 100 (n : ℤ)) ≤ 100) := by
  refine ⟨?_, ?_, ?_⟩
  · rintro rfl
    rfl
  · intro h
    unfold document_integrity_and_explainability role_consistency_check
    dsimp only
    rw [h]
    exact ⟨rfl, rfl⟩
  · intro n h
    unfold document_integrity_and_explainability role_consistency_check
    dsimp only
    rw [h]
    exact ⟨rfl, rfl, by positivity, by omega⟩

/-- C9 witness: an unavailable collaborator yields 60; a reply scoring 150
is clamped to 100. -/
theorem C9_llm_default_and_clamp_witness :
    (document_integrity_and_explainability "x" "c" "e" none).score = 60 ∧
    (document_integrity_and_explainability "x" "c" "e" (some "fine. SCORE: 150")).score = 100 ∧
    (role_consistency_check "j" "x" {} (some "fine. SCORE: 150")).score = 100 := by
  refine ⟨?_, ?_, ?_⟩
  · exact ((C9_llm_default_and_clamp "x" "c" "e" "j" {} none).2.1 (by decide)).1
  · have h := ((C9_llm_default_and_clamp "x" "c" "e" "j" {}
      (some "fine. SCORE: 150")).2.2 150 (by decide)).1
    rw [h]
    norm_num
  · have h := ((C9_llm_default_and_clamp "x" "c" "e" "j" {}
      (some "fine. SCORE: 150")).2.2 150 (by decide)).2.1
    rw [h]
    norm_num

/-- C4 (amended): the reasons list of aggregate_final_score is the
concatenation, truncated to 12 entries with no deduplication, of the flag
lists in the order company authenticity, company existence, salary,
interview — the four sub-checks whose results carry flags — followed by the
derived summary flags (risk-phrase list, informal-channel note,
suspicious-link list, scam-report note when the count is positive,
missing-sections note). -/
theorem C4_reasons_order (A : CompanyAuthResult) (L : LanguageRiskResult)
    (S : SalaryCheckResult) (Li : LinkRiskResult) (I : InterviewResult)
    (St : StructureMeta) (D : DocumentIntegrityResult) (Ro : RoleConsistencyResult)
    (Ce : CompanyExistenceResult) (rc : ℕ) :
    (aggregate_final_score A L S Li I St D Ro Ce rc).reasons =
      (A.flags ++ Ce.flags ++ S.flags ++ I.flags ++
       (if L.risk_phrases.isEmpty then [] else [Flag.riskLanguage L.risk_phrases]) ++
       (if L.whatsapp_telegram_mentions.isEmpty then [] else [Flag.whatsappMentions]) ++
       (if Li.suspicious_links.isEmpty then []
        else [Flag.suspiciousLinks Li.suspicious_links]) ++
       (if 0 < rc then [Flag.reportedScam rc] else []) ++
       (if St.missing_sections.isEmpty then []
        else [Flag.missingSections St.missing_sections])).take 12 := by
  unfold aggregate_final_score
  dsimp only

/-- C4 counterexample: at one concrete set of sub-results — free-mail,
unreachable domain, unreachable existence probe, unparseable salary, no
interview — the code's reasons list puts the company-existence flag right
after the authenticity flags, while the claim's 4.1-to-4.8 ordering puts
the salary and interview flags before it, so the two lists differ. -/
theorem C4_reasons_order_counterexample :
    (aggregate_final_score
      (company_authenticity_check "" "hr@gmail.com" false false)
      (language_risk_check "hi")
      (salary_plausibility_check (.str "abc") "INR" "month" "" "india")
      (link_risk_check [])
      (interview_plausibility_check {})
      (structure_validation_check "hi")
      (document_integrity_and_explainability "hi" "" "hr@gmail.com" none)
      (role_consistency_check "" "hi" {} none)
      (company_existence_check "" "hr@gmail.com" false false) 0).reasons ≠
    claimedReasons
      (company_authenticity_check "" "hr@gmail.com" false false)
      (language_risk_check "hi")
      (salary_plausibility_check (.str "abc") "INR" "month" "" "india")
      (link_risk_check [])
      (interview_plausibility_check {})
      (structure_validation_check "hi")
      (company_existence_check "" "hr@gmail.com" false false) 0 := by
  decide

/-- C5: with a benchmark [low, high] defined for the derived key, the
boundaries are strict: exactly 0.3·low is not penalized, exactly 2·high
draws the −15 penalty (not −40), exactly 1.3·high is not penalized;
strictly below 0.3·low draws −30, strictly above 2·high draws −40, strictly
above 1.3·high but at most 2·high draws −15; and a salary string with no
digit parses to none and scores the neutral 100. -/
theorem C5_salary_boundaries :
    (∀ (region role period cur : String) (low high : ℚ),
      SALARY_BENCHMARKS.lookup (salaryKey region role period) = some (low, high) →
      (∀ a : ℚ, a = low * 0.3 →
        (salary_plausibility_check (.num a) cur period role region).score = 100) ∧
      (∀ a : ℚ, a = high * 2 →
        (salary_plausibility_check (.num a) cur period role region).score = 85) ∧
      (∀ a : ℚ, a = high * 1.3 →
        (salary_plausibility_check (.num a) cur period role region).score = 100) ∧
      (∀ a : ℚ, a < low * 0.3 →
        (salary_plausibility_check (.num a) cur period role region).score = 70) ∧
      (∀ a : ℚ, high * 2 < a →
        (salary_plausibility_check (.num a) cur period role region).score = 60) ∧
      (∀ a : ℚ, high * 1.3 < a → a ≤ high * 2 →
        (salary_plausibility_check (.num a) cur period role region).score = 85)) ∧
    (∀ (s : String) (cur per role region : String), (∀ ch ∈ s.data, ch.isDigit = false) →
      (salary_plausibility_check (.str s) cur per role region).parsed_amount = none ∧
      (salary_plausibility_check (.str s) cur per role region).score = 100) := by
  constructor
  · intro region role period cur low high hbench
    obtain ⟨hl0, hlh, hh0⟩ := bench_bounds hbench
    have core : ∀ a : ℚ,
        (salary_plausibility_check (.num a) cur period role region).score =
          if a < low * 0.3 then 70
          else if a > high * 2 then 60
          else if a > high * 1.3 then 85
          else 100 := by
      intro a
      unfold salary_plausibility_check
      dsimp only [parse_salary_amount]
      rw [hbench]
      dsimp only
      split_ifs <;> norm_num [sup_eq_max, max_def]
    refine ⟨?_, ?_, ?_, ?_, ?_, ?_⟩
    · rintro a rfl
      rw [core]
      rw [if_neg (by linarith), if_neg (by simp only [gt_iff_lt, not_lt]; nlinarith),
        if_neg (by simp only [gt_iff_lt, not_lt]; nlinarith)]
    · rintro a rfl
      rw [core]
      rw [if_neg (by simp only [not_lt]; nlinarith), if_neg (by simp [gt_iff_lt]),
        if_pos (by simp only [gt_iff_lt]; nlinarith)]
    · rintro a rfl
      rw [core]
      rw [if_neg (by simp only [not_lt]; nlinarith),
        if_neg (by simp only [gt_iff_lt, not_lt]; nlinarith),
        if_neg (by simp [gt_iff_lt])]
    · intro a ha
      rw [core, if_pos ha]
    · intro a ha
      rw [core]
      rw [if_neg (by simp only [not_lt]; nlinarith), if_pos (by simpa [gt_iff_lt] using ha)]
    · intro a ha1 ha2
      rw [core]
      rw [if_neg (by simp only [not_lt]; nlinarith),
        if_neg (by simp only [gt_iff_lt, not_lt]; exact ha2),
        if_pos (by simpa [gt_iff_lt] using ha1)]
  · intro s cur per role region h
    have hp := parse_nondigit_none h
    unfold salary_plausibility_check
    rw [hp]
    exact ⟨rfl, rfl⟩

/-- C5 witness: with the india intern month benchmark (0, 35000), an amount
of exactly 2·high = 70000 scores 85, and the digit-free salary string "abc"
parses to none with the neutral score. -/
theorem C5_salary_boundaries_witness :
    SALARY_BENCHMARKS.lookup (salaryKey "india" "intern" "month") = some (0, 35000) ∧
    (salary_plausibility_check (.num 70000) "INR" "month" "intern" "india").score = 85 ∧
    (salary_plausibility_check (.str "abc") "INR" "month" "intern" "india").parsed_amount
      = none ∧
    (salary_plausibility_check (.str "abc") "INR" "month" "intern" "india").score = 100 :=
  ⟨by decide,
   ((C5_salary_boundaries.1 "india" "intern" "month" "INR" 0 35000 (by decide)).2.1 70000
     (by norm_num)),
   (C5_salary_boundaries.2 "abc" "INR" "month" "intern" "india" (by decide)).1,
   (C5_salary_boundaries.2 "abc" "INR" "month" "intern" "india" (by decide)).2⟩

/-- The interview object of the concrete /verify request below: a
30-minute technical zoom interview. -/
def interviewC3 : InterviewInfo :=
  { had_interview := true, channel := "zoom",
    duration_minutes := some 30, asked_technical := some true }

/-- The concrete /verify request used to exhibit claim C3's divergence: a
well-formed payload whose offer text is "hi", with a 30-minute technical
zoom interview, all probes failing and no LLM. -/
def payloadC3 : Payload :=
  { raw_text := "hi", interview := interviewC3 }

/-- C3: the /verify handler's final trust score ignores the persisted
scam-report count.  verify_offer aggregates with the placeholder count 0 —
main.py only attaches the stored stats next to the analysis and never
passes them into aggregate_final_score — so the final score is the same
for every stored count (76 for payloadC3), although aggregating the same
sub-results with the stored count 7 would give 71. -/
theorem C3_stored_count_never_reaches_aggregation :
    (∀ stored : ℕ,
      (verify_endpoint payloadC3 {} stored).analysis.final_trust.score =
        (verify_endpoint payloadC3 {} 0).analysis.final_trust.score) ∧
    (verify_endpoint payloadC3 {} 7).stored_reports_count = 7 ∧
    (verify_endpoint payloadC3 {} 7).analysis.final_trust.score = 76 ∧
    (aggregate_final_score
      (company_authenticity_check "" "" false false)
      (language_risk_check "hi")
      (salary_plausibility_check .null "INR" "month" "" "india")
      (link_risk_check (extract_urls ("hi" : String).data))
      (interview_plausibility_check interviewC3)
      (structure_validation_check "hi")
      (document_integrity_and_explainability "hi" "" "" none)
      (role_consistency_check "" "hi" interviewC3 none)
      (company_existence_check "" "" false false) 7).score = 71 := by
  have hA : (company_authenticity_check "" "" false false).score = 75 := by decide
  have hL : (language_risk_check "hi").score = 100 := by decide
  have hS : (salary_plausibility_check .null "INR" "month" "" "india").score = 100 := by
    decide
  have hLi : (link_risk_check (extract_urls ("hi" : String).data)).score = 100 := by decide
  have hI : (interview_plausibility_check interviewC3).score = 100 := by decide
  have hSt : (structure_validation_check "hi").score = 0 := by decide
  have hD : (document_integrity_and_explainability "hi" "" "" none).score = 60 := by decide
  have hRo : (role_consistency_check "" "hi" interviewC3 none).score = 60 := by decide
  have hCe : (company_existence_check "" "" false false).score = 80 := by decide
  have hSc0 : scamTrust 0 = 100 := by decide
  have hSc7 : scamTrust 7 = 0 := by decide
  refine ⟨fun _ => rfl, rfl, ?_, ?_⟩
  · show (aggregate_final_score
      (company_authenticity_check "" "" false false)
      (language_risk_check "hi")
      (salary_plausibility_check .null "INR" "month" "" "india")
      (link_risk_check (extract_urls ("hi" : String).data))
      (interview_plausibility_check interviewC3)
      (structure_validation_check "hi")
      (document_integrity_and_explainability "hi" "" "" none)
      (role_consistency_check "" "hi" interviewC3 none)
      (company_existence_check "" "" false false) 0).score = 76
    rw [aggregate_score_def, hA, hL, hS, hLi, hI, hSt, hD, hRo, hCe, hSc0]
    have hsum : ((75 : ℤ) : ℚ) * 0.2 + ((100 : ℤ) : ℚ) * 0.15 + ((100 : ℤ) : ℚ) * 0.1 +
        ((100 : ℤ) : ℚ) * 0.05 + ((100 : ℤ) : ℚ) * 0.1 + ((0 : ℤ) : ℚ) * 0.1 +
        ((60 : ℤ) : ℚ) * 0.1 + ((60 : ℤ) : ℚ) * 0.1 + ((80 : ℤ) : ℚ) * 0.05 +
        ((100 : ℤ) : ℚ) * 0.05 = ((76 : ℤ) : ℚ) := by
      norm_num
    rw [hsum, pyRound_intCast]
  · rw [aggregate_score_def, hA, hL, hS, hLi, hI, hSt, hD, hRo, hCe, hSc7]
    have hsum : ((75 : ℤ) : ℚ) * 0.2 + ((100 : ℤ) : ℚ) * 0.15 + ((100 : ℤ) : ℚ) * 0.1 +
        ((100 : ℤ) : ℚ) * 0.05 + ((100 : ℤ) : ℚ) * 0.1 + ((0 : ℤ) : ℚ) * 0.1 +
        ((60 : ℤ) : ℚ) * 0.1 + ((60 : ℤ) : ℚ) * 0.1 + ((80 : ℤ) : ℚ) * 0.05 +
        ((0 : ℤ) : ℚ) * 0.05 = ((71 : ℤ) : ℚ) := by
      norm_num
    rw [hsum, pyRound_intCast]

end OfferShield
